import Mathlib

/-!
Verification of the wallet/ledger service in `main.go`.

The service stores wallets (id, decimal balance) and an append-only log of
wallet transactions in SQLite, and exposes four handlers: create wallet,
send (transfer), history, and get wallet.  We embed the store as lists of
records, decimal amounts as rationals (shopspring decimal is exact decimal
arithmetic, a subring of the rationals), and each handler as a pure function
from the store to a response together with the resulting store.
-/

namespace GoSimpleService

/-- Balances and amounts: `decimal.Decimal` is exact decimal arithmetic;
we embed it into the rationals, where `Sub`, `Add` and `IsPositive`
(`d > 0`) have the same meaning. -/
abbrev Amount := Rat

/-- Timestamps (`time.Time`), opaque for our purposes. -/
abbrev Timestamp := Nat

/-- A row of the `wallets` table (`type Wallet struct`). -/
structure Wallet where
  id : String
  balance : Amount
deriving Repr, DecidableEq

/-- A row of the `wallet_transactions` table (`type WalletTransaction struct`):
`author_id` is the source wallet id, `sender_id` the destination wallet id,
`balance` the transferred amount, `date` the insertion time. -/
structure WalletTransaction where
  authorId : String
  senderId : String
  balance : Amount
  date : Timestamp
deriving Repr, DecidableEq

/-- The display form of a transaction (`type WalletTransactionDTO struct`):
field names map to JSON keys `from`, `to`, `amount`, `time`. -/
structure WalletTransactionDTO where
  authorId : String
  senderId : String
  balance : Amount
  date : Timestamp
deriving Repr, DecidableEq

/-- The mapping from a stored transaction row to its display form performed
by the history handler. -/
def toDTO (t : WalletTransaction) : WalletTransactionDTO :=
  { authorId := t.authorId, senderId := t.senderId, balance := t.balance, date := t.date }

/-- The database: the `wallets` table and the `wallet_transactions` table.
Row order models store-native retrieval order. -/
structure Store where
  wallets : List Wallet
  transactions : List WalletTransaction
deriving Repr, DecidableEq

/-- The query `select * from wallets where id = ?` followed by `Scan`:
`none` models the `sql.ErrNoRows` error of a missing row
(`loadByIdAsync` body, and the direct queries in the GET handlers). -/
def loadById (s : Store) (id : String) : Option Wallet :=
  s.wallets.find? (fun w => w.id == id)

/-- The statement `update wallets set balance = ? where id = ?`: every row
whose id matches gets the new balance. -/
def updateBalance (ws : List Wallet) (id : String) (b : Amount) : List Wallet :=
  ws.map (fun w => if w.id == id then { w with balance := b } else w)

/-- HTTP statuses used by the service. -/
inductive HttpStatus where
  | ok
  | created
  | badRequest
  | notFound
  | internalServerError
deriving Repr, DecidableEq

/-- The validation in the send handler:
`!fromAmount.IsPositive() || !toAmount.IsPositive()` rejects, so the transfer
is approved iff `sourceBalance - amount > 0` and `destinationBalance + amount > 0`. -/
def transferApproved (sourceBalance destinationBalance amount : Amount) : Bool :=
  decide (0 < sourceBalance - amount) && decide (0 < destinationBalance + amount)

/-- Fate of the SQL transaction opened by the send handler when the handler
returns: `tx.Commit()` was called, `tx.Rollback()` was called, or neither
(the transaction is left open and its connection leaks). -/
inductive TxOutcome where
  | committed
  | rolledBack
  | leftOpen
deriving Repr, DecidableEq

/-- What the `POST :walletid/send` handler leaves behind: the HTTP status,
the store after the request, and what happened to the opened transaction. -/
structure SendResult where
  status : HttpStatus
  store : Store
  tx : TxOutcome
deriving Repr, DecidableEq

/-- The `POST :walletid/send` handler after JSON binding, as a function of the
current store, the path wallet id (`fromId`), the body (`toId`, `amount`) and
the current time.  Both wallet rows are read from the same transaction
snapshot, the source result is consumed first (error → `tx.Rollback()` and
404, regardless of the destination), then the destination (error →
`tx.Rollback()` and 400); on validator rejection the handler returns 400
without calling either `tx.Rollback()` or `tx.Commit()` (the transaction is
left open; nothing was written, so the store is unchanged); on approval the
two UPDATE statements run in order (source row first, destination row
second), one transaction record is inserted, and `tx.Commit()` makes it all
visible (200). -/
def sendHandler (s : Store) (fromId toId : String) (amount : Amount)
    (now : Timestamp) : SendResult :=
  match loadById s fromId with
  | none => { status := .notFound, store := s, tx := .rolledBack }
  | some walletFrom =>
    match loadById s toId with
    | none => { status := .badRequest, store := s, tx := .rolledBack }
    | some walletTo =>
      let fromAmount := walletFrom.balance - amount
      let toAmount := walletTo.balance + amount
      if transferApproved walletFrom.balance walletTo.balance amount then
        { status := .ok,
          store :=
            { wallets := updateBalance (updateBalance s.wallets fromId fromAmount) toId toAmount,
              transactions := s.transactions ++
                [{ authorId := fromId, senderId := toId, balance := amount, date := now }] },
          tx := .committed }
      else
        { status := .badRequest, store := s, tx := .leftOpen }

/-- Response of the `GET :walletid/history` handler. -/
inductive HistoryResponse where
  | notFound
  | ok (rows : List WalletTransactionDTO)
deriving Repr, DecidableEq

/-- The `GET :walletid/history` handler: look the wallet up (missing → 404),
then `select * from wallet_transactions where author_id = ? or sender_id = ?`
and map each row to its display form.  The handler only reads, so the store
is returned unchanged. -/
def historyHandler (s : Store) (id : String) : HistoryResponse × Store :=
  match loadById s id with
  | none => (.notFound, s)
  | some _ =>
    (.ok ((s.transactions.filter
      (fun t => t.authorId == id || t.senderId == id)).map toDTO), s)

/-- Response of the `GET :walletid` handler. -/
inductive GetWalletResponse where
  | notFound
  | ok (id : String) (balance : Amount)
deriving Repr, DecidableEq

/-- The `GET :walletid` handler: look the wallet up (missing → 404, otherwise
200 with id and balance).  The handler only reads, so the store is returned
unchanged. -/
def getWalletHandler (s : Store) (id : String) : GetWalletResponse × Store :=
  match loadById s id with
  | none => (.notFound, s)
  | some w => (.ok w.id w.balance, s)

/-- The alphabet of `GenerateRandomString`
(`const letters = "0123456789...xyz-"`). -/
def letters : String :=
  "0123456789ABCDEFGHIJKLMNOPQRSTUVWXYZabcdefghijklmnopqrstuvwxyz-"

/-- `GenerateRandomString n`: each iteration draws
`rand.Int(rand.Reader, len(letters))`, a number in `[0, len(letters))`, and
picks that letter.  The random source is modelled as the function `draws`
giving the value of each draw. -/
def GenerateRandomString (n : Nat) (draws : Nat → Fin letters.length) : String :=
  ⟨(List.range n).map (fun i => letters.data.get ⟨(draws i).val, (draws i).isLt⟩)⟩

/-- The id allocated by the `POST ""` create-wallet handler:
`GenerateRandomString(6)`. -/
def createWalletId (draws : Nat → Fin letters.length) : String :=
  GenerateRandomString 6 draws

/-- A Go channel, abstracted to its buffer capacity. -/
structure GoChan where
  capacity : Nat
deriving Repr, DecidableEq

/-- Go `make(chan T)` with no capacity argument: an unbuffered channel. -/
def makeChan : GoChan := { capacity := 0 }

/-- The channel `fromCh := make(chan Result)` of the send handler. -/
def fromCh : GoChan := makeChan

/-- The channel `toCh := make(chan Result)` of the send handler. -/
def toCh : GoChan := makeChan

/-- A send on a Go channel whose result is never received completes without
blocking iff there is spare buffer capacity for it: with `pending` values
already buffered, the send needs `pending < capacity`. -/
def sendCompletesWithoutReceiver (ch : GoChan) (pending : Nat) : Bool :=
  pending < ch.capacity

/-! Concrete stores used to instantiate the theorems. -/

/-- A freshly created wallet `X` (creation gives balance 100). -/
def wX : Wallet := { id := "X", balance := 100 }

/-- A freshly created wallet `Y`. -/
def wY : Wallet := { id := "Y", balance := 100 }

/-- A store holding wallets `X` and `Y` and no transactions. -/
def s0 : Store := { wallets := [wX, wY], transactions := [] }

/-- A store holding only wallet `X` and no transactions. -/
def s1 : Store := { wallets := [wX], transactions := [] }

/-- A store holding wallets `X`, `Y` and two transactions, only the first
touching `X`. -/
def sH : Store :=
  { wallets := [wX, wY],
    transactions := [{ authorId := "X", senderId := "Y", balance := 30, date := 0 },
                     { authorId := "Y", senderId := "Y", balance := 5, date := 1 }] }

/-! Helper lemmas about `find?` after an update. -/

/-- An `update wallets set balance` statement moves `find?` through: the found
row for any queried id is the original found row with the update applied. -/
theorem find?_updateBalance (ws : List Wallet) (uid qid : String) (b : Amount) :
    (updateBalance ws uid b).find? (fun w => w.id == qid)
      = (ws.find? (fun w => w.id == qid)).map
          (fun w => if w.id == uid then { w with balance := b } else w) := by
  unfold updateBalance
  rw [List.find?_map]
  have hpf : ((fun w : Wallet => w.id == qid) ∘
      fun w => if w.id == uid then { w with balance := b } else w)
      = fun w : Wallet => w.id == qid := by
    funext w
    simp only [Function.comp]
    split <;> rfl
  rw [hpf]

/-- C2: the transfer validation, as a pure function of the two balances and
the amount, approves iff `sourceBalance - amount` and
`destinationBalance + amount` are both strictly positive; a transfer that
would leave either balance at exactly zero is rejected. -/
theorem transferApproved_iff (sb db a : Amount) :
    (transferApproved sb db a = true ↔ 0 < sb - a ∧ 0 < db + a) ∧
    (sb - a = 0 → transferApproved sb db a = false) ∧
    (db + a = 0 → transferApproved sb db a = false) := by
  refine ⟨by simp [transferApproved], ?_, ?_⟩
  · intro h
    have h1 : decide (0 < sb - a) = false := decide_eq_false (by rw [h]; exact lt_irrefl 0)
    simp only [transferApproved, h1, Bool.false_and]
  · intro h
    have h2 : decide (0 < db + a) = false := decide_eq_false (by rw [h]; exact lt_irrefl 0)
    simp only [transferApproved, h2, Bool.and_false]

/-- Instantiation of `transferApproved_iff`: with source balance 2,
destination balance -2 and amount 2 both new balances are exactly zero and
the transfer is rejected. -/
theorem transferApproved_iff_witness : transferApproved 2 (-2) 2 = false :=
  (transferApproved_iff 2 (-2) 2).2.1 (by norm_num)

/-- C1: a transfer between two distinct existing wallets with source balance
`B`, destination balance `D` and amount `A` of any sign such that
`B - A > 0` and `D + A > 0` succeeds (HTTP 200): the source wallet's balance
becomes `B - A`, the destination wallet's balance becomes `D + A`, and
exactly one transaction record with amount `A` is appended. -/
theorem send_success (s : Store) (fromId toId : String) (A : Amount)
    (now : Timestamp) (wf wt : Wallet)
    (hne : fromId ≠ toId)
    (hf : loadById s fromId = some wf)
    (ht : loadById s toId = some wt)
    (hs : 0 < wf.balance - A)
    (hd : 0 < wt.balance + A) :
    (sendHandler s fromId toId A now).status = .ok ∧
    loadById (sendHandler s fromId toId A now).store fromId
      = some { wf with balance := wf.balance - A } ∧
    loadById (sendHandler s fromId toId A now).store toId
      = some { wt with balance := wt.balance + A } ∧
    (sendHandler s fromId toId A now).store.transactions
      = s.transactions ++
        [{ authorId := fromId, senderId := toId, balance := A, date := now }] := by
  have hf' : s.wallets.find? (fun w => w.id == fromId) = some wf := hf
  have ht' : s.wallets.find? (fun w => w.id == toId) = some wt := ht
  have hbf := List.find?_some hf'
  have hbt := List.find?_some ht'
  have hwfid : wf.id = fromId := eq_of_beq hbf
  have hwtid : wt.id = toId := eq_of_beq hbt
  have happ : transferApproved wf.balance wt.balance A = true := by
    simp [transferApproved, hs, hd]
  have hsend : sendHandler s fromId toId A now =
      { status := .ok,
        store :=
          { wallets := updateBalance (updateBalance s.wallets fromId (wf.balance - A))
              toId (wt.balance + A),
            transactions := s.transactions ++
              [{ authorId := fromId, senderId := toId, balance := A, date := now }] },
        tx := .committed } := by
    simp [sendHandler, hf, ht, happ]
  rw [hsend]
  refine ⟨rfl, ?_, ?_, rfl⟩
  · show (updateBalance (updateBalance s.wallets fromId (wf.balance - A))
        toId (wt.balance + A)).find? (fun w => w.id == fromId) = _
    rw [find?_updateBalance, find?_updateBalance, hf']
    simp [hwfid, hne]
  · show (updateBalance (updateBalance s.wallets fromId (wf.balance - A))
        toId (wt.balance + A)).find? (fun w => w.id == toId) = _
    rw [find?_updateBalance, find?_updateBalance, ht']
    simp [hwtid, Ne.symm hne]

/-- Instantiation of `send_success`: transferring 30 from `X` to `Y` in the
two-fresh-wallet store leaves `X` at 70, `Y` at 130, and appends the one
record. -/
theorem send_success_witness :
    (sendHandler s0 "X" "Y" 30 0).status = .ok ∧
    loadById (sendHandler s0 "X" "Y" 30 0).store "X"
      = some { wX with balance := wX.balance - 30 } ∧
    loadById (sendHandler s0 "X" "Y" 30 0).store "Y"
      = some { wY with balance := wY.balance + 30 } ∧
    (sendHandler s0 "X" "Y" 30 0).store.transactions
      = s0.transactions ++
        [{ authorId := "X", senderId := "Y", balance := 30, date := 0 }] :=
  send_success s0 "X" "Y" 30 0 wX wY (by decide) rfl rfl
    (by norm_num [wX]) (by norm_num [wY])

/-- C3: evaluated at the failing input (transfer 1000 from `X`, balance 100,
to `Y`), the rejected transfer answers 400 and leaves the store exactly as it
was — no balance changes, no record appended — but the open transaction is
left open: the handler returns without calling `tx.Rollback()` (or
`tx.Commit()`), unlike every other error path, so the claimed rollback does
not happen and the transaction's connection leaks. -/
theorem send_rejected_leaves_tx_open :
    sendHandler s0 "X" "Y" 1000 0 =
      { status := .badRequest, store := s0, tx := .leftOpen } := by
  have hf : loadById s0 "X" = some wX := rfl
  have ht : loadById s0 "Y" = some wY := rfl
  have happ : transferApproved wX.balance wY.balance 1000 = false := by
    have h1 : decide ((0:Amount) < wX.balance - 1000) = false :=
      decide_eq_false (not_lt.mpr (by norm_num [wX]))
    simp only [transferApproved, h1, Bool.false_and]
  simp [sendHandler, hf, ht, happ]

/-- C4: the source result is consumed first and the error mapping is
asymmetric: a failed source fetch answers 404 whatever the destination is
(even when the destination is missing too); a successful source fetch with a
failed destination fetch answers 400. -/
theorem send_error_priority (s : Store) (fromId toId : String) (A : Amount)
    (now : Timestamp) :
    (loadById s fromId = none →
      sendHandler s fromId toId A now =
        { status := .notFound, store := s, tx := .rolledBack }) ∧
    (∀ wf, loadById s fromId = some wf → loadById s toId = none →
      sendHandler s fromId toId A now =
        { status := .badRequest, store := s, tx := .rolledBack }) := by
  constructor
  · intro h
    simp [sendHandler, h]
  · intro wf hf ht
    simp [sendHandler, hf, ht]

/-- Instantiation of `send_error_priority`: in the store holding only `X`,
sending from the missing `Z` answers 404 even though the destination `W` is
missing too, and sending from `X` to the missing `Z` answers 400. -/
theorem send_error_priority_witness :
    sendHandler s1 "Z" "W" 5 0 = { status := .notFound, store := s1, tx := .rolledBack } ∧
    sendHandler s1 "X" "Z" 5 0 = { status := .badRequest, store := s1, tx := .rolledBack } :=
  ⟨(send_error_priority s1 "Z" "W" 5 0).1 rfl,
   (send_error_priority s1 "X" "Z" 5 0).2 wX rfl rfl⟩

/-- C5: the send handler creates both result channels with
`make(chan Result)`, i.e. with capacity 0 (unbuffered), so when the source
fetch fails and the destination result is never consumed, the abandoned
destination goroutine cannot complete its send: the claimed buffered
single-slot channel does not exist in the code and the blocked goroutine
leaks. -/
theorem toCh_unbuffered :
    fromCh.capacity = 0 ∧ toCh.capacity = 0 ∧
    sendCompletesWithoutReceiver toCh 0 = false :=
  ⟨rfl, rfl, rfl⟩

/-- C6: an approved self-transfer (`source_id = destination_id`) of amount
`A` on a wallet with balance `B` ends with the row holding the value written
by the last of the two UPDATE statements — the destination update — so the
stored balance becomes `B + A`. -/
theorem send_self (s : Store) (id : String) (A : Amount) (now : Timestamp)
    (w : Wallet)
    (h : loadById s id = some w)
    (hs : 0 < w.balance - A)
    (hd : 0 < w.balance + A) :
    (sendHandler s id id A now).status = .ok ∧
    loadById (sendHandler s id id A now).store id
      = some { w with balance := w.balance + A } := by
  have h' : s.wallets.find? (fun w => w.id == id) = some w := h
  have hb := List.find?_some h'
  have hwid : w.id = id := eq_of_beq hb
  have happ : transferApproved w.balance w.balance A = true := by
    simp [transferApproved, hs, hd]
  have hsend : sendHandler s id id A now =
      { status := .ok,
        store :=
          { wallets := updateBalance (updateBalance s.wallets id (w.balance - A))
              id (w.balance + A),
            transactions := s.transactions ++
              [{ authorId := id, senderId := id, balance := A, date := now }] },
        tx := .committed } := by
    simp [sendHandler, h, happ]
  rw [hsend]
  refine ⟨rfl, ?_⟩
  show (updateBalance (updateBalance s.wallets id (w.balance - A))
      id (w.balance + A)).find? (fun w => w.id == id) = _
  rw [find?_updateBalance, find?_updateBalance, h']
  simp [hwid]

/-- Instantiation of `send_self`: a self-transfer of 5 on `X` (balance 100)
succeeds and leaves `X` at 105, the value of the second UPDATE. -/
theorem send_self_witness :
    (sendHandler s0 "X" "X" 5 0).status = .ok ∧
    loadById (sendHandler s0 "X" "X" 5 0).store "X"
      = some { wX with balance := wX.balance + 5 } :=
  send_self s0 "X" 5 0 wX rfl (by norm_num [wX]) (by norm_num [wX])

/-- C7: the history handler answers 404 exactly when the wallet id has no
row; for an existing wallet it returns, mapped to display form, every
transaction record whose `author_id` (source) or `sender_id` (destination)
is the id — and for an existing wallet with no transactions it returns the
empty sequence with status 200, not an error. -/
theorem history_spec (s : Store) (id : String) :
    ((historyHandler s id).1 = .notFound ↔ loadById s id = none) ∧
    (∀ w, loadById s id = some w →
      historyHandler s id =
        (.ok ((s.transactions.filter
          (fun t => t.authorId == id || t.senderId == id)).map toDTO), s)) ∧
    (∀ w, loadById s id = some w → s.transactions = [] →
      historyHandler s id = (.ok [], s)) := by
  refine ⟨?_, ?_, ?_⟩
  · cases h : loadById s id <;> simp [historyHandler, h]
  · intro w hw
    simp [historyHandler, hw]
  · intro w hw hemp
    simp [historyHandler, hw, hemp]

/-- Instantiation of `history_spec`: in the store `sH` wallet `X` has one
matching record of the two stored; in the store `s1` wallet `X` exists with
no transactions and history is the empty list. -/
theorem history_spec_witness :
    historyHandler sH "X" =
      (.ok ((sH.transactions.filter
        (fun t => t.authorId == "X" || t.senderId == "X")).map toDTO), sH) ∧
    historyHandler s1 "X" = (.ok [], s1) :=
  ⟨(history_spec sH "X").2.1 wX rfl, (history_spec s1 "X").2.2 wX rfl rfl⟩

/-- C8: the record appended by a successful transfer has `author_id` the
source wallet id, `sender_id` the destination wallet id, and its amount
field equal to the requested amount, not either resulting balance. -/
theorem send_record_fields (s : Store) (fromId toId : String) (A : Amount)
    (now : Timestamp) (wf wt : Wallet)
    (hf : loadById s fromId = some wf)
    (ht : loadById s toId = some wt)
    (happ : transferApproved wf.balance wt.balance A = true) :
    (sendHandler s fromId toId A now).status = .ok ∧
    (sendHandler s fromId toId A now).store.transactions
      = s.transactions ++
        [{ authorId := fromId, senderId := toId, balance := A, date := now }] := by
  simp [sendHandler, hf, ht, happ]

/-- Instantiation of `send_record_fields`: the 30-unit transfer from `X` to
`Y` appends the single record `{author_id := X, sender_id := Y, amount := 30}`. -/
theorem send_record_fields_witness :
    (sendHandler s0 "X" "Y" 30 1).status = .ok ∧
    (sendHandler s0 "X" "Y" 30 1).store.transactions
      = s0.transactions ++
        [{ authorId := "X", senderId := "Y", balance := 30, date := 1 }] :=
  send_record_fields s0 "X" "Y" 30 1 wX wY rfl rfl
    (by norm_num [transferApproved, wX, wY])

/-- C9: the get-wallet handler is read-only: it returns the store unchanged,
and querying the same wallet again with no intervening transfer yields the
identical response. -/
theorem getWallet_readonly (s : Store) (id : String) :
    (getWalletHandler s id).2 = s ∧
    (getWalletHandler ((getWalletHandler s id).2) id).1
      = (getWalletHandler s id).1 := by
  have h2 : (getWalletHandler s id).2 = s := by
    cases h : loadById s id <;> simp [getWalletHandler, h]
  exact ⟨h2, by rw [h2]⟩

/-- C10 counterexample: the id alphabet
`"0123456789...xyz-"` — the digits, the uppercase and lowercase Latin
letters, and the dash — has exactly 63 distinct symbols, not 64. -/
theorem letters_has_63_symbols :
    letters.data.Nodup ∧ letters.length = 63 ∧ (letters.length == 64) = false := by
  refine ⟨?_, rfl, rfl⟩
  decide

/-- C10 (amended): every id produced by the create-wallet handler is exactly
6 characters long, each character drawn from the fixed 63-symbol alphabet of
the digits 0-9, the uppercase and lowercase Latin letters, and the dash. -/
theorem createWalletId_spec (draws : Nat → Fin letters.length) :
    (createWalletId draws).length = 6 ∧
    letters.length = 63 ∧
    ∀ c ∈ (createWalletId draws).data,
      c ∈ letters.data ∧ (c.isDigit ∨ c.isUpper ∨ c.isLower ∨ c = '-') := by
  refine ⟨rfl, rfl, ?_⟩
  intro c hc
  have hmem : c ∈ letters.data := by
    simp only [createWalletId, GenerateRandomString, List.mem_map] at hc
    obtain ⟨i, _, rfl⟩ := hc
    exact List.get_mem letters.data (draws i).val (draws i).isLt
  have hall : ∀ c ∈ letters.data, c.isDigit ∨ c.isUpper ∨ c.isLower ∨ c = '-' := by
    decide
  exact ⟨hmem, hall c hmem⟩

/-- Instantiation of `createWalletId_spec` at the all-zero draw sequence:
the id has length 6 and its first character is in the alphabet. -/
theorem createWalletId_spec_witness :
    (createWalletId (fun _ => ⟨0, by decide⟩)).length = 6 ∧
    ('0' ∈ letters.data ∧
      ('0'.isDigit ∨ '0'.isUpper ∨ '0'.isLower ∨ '0' = '-')) :=
  ⟨(createWalletId_spec (fun _ => ⟨0, by decide⟩)).1,
   (createWalletId_spec (fun _ => ⟨0, by decide⟩)).2.2 '0' (by decide)⟩

end GoSimpleService
